import Mathlib

/-!
# Field mask of `pkg/apis/serving/v1alpha1/fieldmask.go`

A shallow embedding of `KnativeContainer`, `knativeEnvVar` and
`knativeEnvVarSource`, followed by models of the parts of the control plane
that the conformance tests drive and whose code is not among the source files:
the volume source mask, the Release-mode traffic targets and the generations
of a Configuration.

Conventions of the embedding:

* a Go pointer `*T` is an `Option T` (`none` is `nil`);
* a Go slice `[]T` is an `Option (List T)` (`none` is the nil slice, `some []`
  an empty non-nil slice; capacity is not modelled);
* a function that receives pointers returns the objects behind those pointers
  as they are after the call (explicit state passing), so that writes through
  `in` would be visible in the result;
* an index expression that is out of range is a run-time panic, modelled as
  `Except.error`.
-/

namespace Serving

/-! ## Types of `k8s.io/api/core/v1` -/

/-- A Go type the mask never looks inside, given by its values and its zero
value `T{}`. -/
structure GoType where
  T : Type
  zero : T

/-- The struct types of `k8s.io/api/core/v1` that `fieldmask.go` only copies
as a whole. Their declarations are not part of this repository, so they are
parameters of the development. -/
structure CoreV1 where
  ContainerPort : GoType
  EnvFromSource : GoType
  ResourceRequirements : GoType
  VolumeMount : GoType
  VolumeDevice : GoType
  Probe : GoType
  Lifecycle : GoType
  SecurityContext : GoType
  ObjectFieldSelector : GoType
  ResourceFieldSelector : GoType
  ConfigMapKeySelector : GoType
  SecretKeySelector : GoType

/-- The struct `corev1.EnvVarSource`: four optional references. -/
structure EnvVarSource (K : CoreV1) where
  FieldRef : Option K.ObjectFieldSelector.T
  ResourceFieldRef : Option K.ResourceFieldSelector.T
  ConfigMapKeyRef : Option K.ConfigMapKeySelector.T
  SecretKeyRef : Option K.SecretKeySelector.T

/-- The struct `corev1.EnvVar`. -/
structure EnvVar (K : CoreV1) where
  Name : String
  Value : String
  ValueFrom : Option (EnvVarSource K)

/-- The struct `corev1.Container`, with all of its fields.
`TerminationMessagePolicy` and `ImagePullPolicy` are Go string types. -/
structure Container (K : CoreV1) where
  Name : String
  Image : String
  Command : Option (List String)
  Args : Option (List String)
  WorkingDir : String
  Ports : Option (List K.ContainerPort.T)
  EnvFrom : Option (List K.EnvFromSource.T)
  Env : Option (List (EnvVar K))
  Resources : K.ResourceRequirements.T
  VolumeMounts : Option (List K.VolumeMount.T)
  VolumeDevices : Option (List K.VolumeDevice.T)
  LivenessProbe : Option K.Probe.T
  ReadinessProbe : Option K.Probe.T
  Lifecycle : Option K.Lifecycle.T
  TerminationMessagePath : String
  TerminationMessagePolicy : String
  ImagePullPolicy : String
  SecurityContext : Option K.SecurityContext.T
  Stdin : Bool
  StdinOnce : Bool
  TTY : Bool

/-- The zero value `corev1.EnvVarSource{}`, as `new(corev1.EnvVarSource)` yields. -/
def EnvVarSource.zero (K : CoreV1) : EnvVarSource K :=
  { FieldRef := none, ResourceFieldRef := none, ConfigMapKeyRef := none, SecretKeyRef := none }

/-- The zero value `corev1.EnvVar{}`, the element of a slice fresh from `make`. -/
def EnvVar.zero (K : CoreV1) : EnvVar K :=
  { Name := "", Value := "", ValueFrom := none }

/-- The zero value `corev1.Container{}`, as `new(corev1.Container)` yields. -/
def Container.zero (K : CoreV1) : Container K :=
  { Name := "", Image := "", Command := none, Args := none, WorkingDir := "",
    Ports := none, EnvFrom := none, Env := none,
    Resources := K.ResourceRequirements.zero,
    VolumeMounts := none, VolumeDevices := none,
    LivenessProbe := none, ReadinessProbe := none, Lifecycle := none,
    TerminationMessagePath := "", TerminationMessagePolicy := "",
    ImagePullPolicy := "", SecurityContext := none,
    Stdin := false, StdinOnce := false, TTY := false }

/-! ## Go built-ins and the generated deep copy -/

/-- The built-in `make([]T, n)`: a slice of `n` zero values. -/
def make {α : Type} (n : Nat) (zero : α) : List α :=
  List.replicate n zero

/-- The built-in `copy(dst, src)`: overwrites the first `min(len(dst), len(src))`
elements of `dst` with those of `src`; the result is `dst` after the call. -/
def copy {α : Type} (dst src : List α) : List α :=
  src.take dst.length ++ dst.drop src.length

/-- The index expression `xs[i]` read: panics when `i` is out of range. -/
def index {α : Type} (xs : List α) (i : Nat) : Except String α :=
  match xs[i]? with
  | some x => Except.ok x
  | none => Except.error "index out of range"

/-- The generated `(in *T).DeepCopyInto(out *T)` of `k8s.io/api/core/v1`
(`zz_generated.deepcopy.go`, not part of this repository): it overwrites the
object behind `out` with a deep copy of the receiver and leaves the receiver
alone. The result is the pair of both objects after the call. -/
def DeepCopyInto {α : Type} (inp _out : α) : α × α :=
  (inp, inp)

/-- The loop `for i := range *in { body(&(*in)[i], &(*out)[i]) }` over two
slices: `body` receives both elements by pointer and may write through either,
so both elements are stored back. The result is the pair of both slices after
the loop. -/
def forRange {α β : Type} (body : α → β → α × β) (inp : List α) (out : List β) :
    Except String (List α × List β) :=
  (List.range inp.length).foldlM
    (fun (st : List α × List β) (i : Nat) => do
      let a ← index st.1 i
      let b ← index st.2 i
      let r := body a b
      pure (st.1.set i r.1, st.2.set i r.2))
    (inp, out)

/-! ## `fieldmask.go` -/

/-- The function `knativeEnvVarSource(in, out *corev1.EnvVarSource)`; the result
is the pair of the objects behind `in` and `out` after the call. -/
def knativeEnvVarSource {K : CoreV1} (inp out : EnvVarSource K) :
    EnvVarSource K × EnvVarSource K :=
  -- out.FieldRef = nil
  let out := { out with FieldRef := none }
  -- out.ResourceFieldRef = nil
  let out := { out with ResourceFieldRef := none }
  -- if in.ConfigMapKeyRef != nil { *out = new(...); (*in).DeepCopyInto(*out) }
  let st : EnvVarSource K × EnvVarSource K :=
    match inp.ConfigMapKeyRef with
    | none => (inp, out)
    | some p =>
      let r := DeepCopyInto p K.ConfigMapKeySelector.zero
      ({ inp with ConfigMapKeyRef := some r.1 }, { out with ConfigMapKeyRef := some r.2 })
  -- if in.SecretKeyRef != nil { *out = new(...); (*in).DeepCopyInto(*out) }
  match st.1.SecretKeyRef with
  | none => st
  | some p =>
    let r := DeepCopyInto p K.SecretKeySelector.zero
    ({ st.1 with SecretKeyRef := some r.1 }, { st.2 with SecretKeyRef := some r.2 })

/-- The function `knativeEnvVar(in, out *corev1.EnvVar)`; the result is the pair
of the objects behind `in` and `out` after the call. -/
def knativeEnvVar {K : CoreV1} (inp out : EnvVar K) : EnvVar K × EnvVar K :=
  -- out.Name = in.Name
  let out := { out with Name := inp.Name }
  -- out.Value = in.Value
  let out := { out with Value := inp.Value }
  -- if in.ValueFrom != nil { *out = new(corev1.EnvVarSource); knativeEnvVarSource(*in, *out) }
  match inp.ValueFrom with
  | none => (inp, out)
  | some p =>
    let r := knativeEnvVarSource p (EnvVarSource.zero K)
    ({ inp with ValueFrom := some r.1 }, { out with ValueFrom := some r.2 })

/-- The state of a run of `KnativeContainer`: the object behind `in` and the
object behind `out`. -/
abbrev Frame (K : CoreV1) : Type := Container K × Container K

/-- Lines 31-36, `Args is allowed`:
`if in.Args != nil { *out = make([]string, len(*in)); copy(*out, *in) }`. -/
def maskArgs {K : CoreV1} (st : Frame K) : Frame K :=
  match st.1.Args with
  | none => st
  | some a => (st.1, { st.2 with Args := some (copy (make a.length "") a) })

/-- Lines 37-42, `Command is allowed`:
`if in.Command != nil { *out = make([]string, len(*in)); copy(*out, *in) }`. -/
def maskCommand {K : CoreV1} (st : Frame K) : Frame K :=
  match st.1.Command with
  | none => st
  | some a => (st.1, { st.2 with Command := some (copy (make a.length "") a) })

/-- Lines 43-50, `Env is allowed with restricted fields`:
`if in.Env != nil { *out = make([]corev1.EnvVar, len(*in));
for i := range *in { knativeEnvVar(&(*in)[i], &(*out)[i]) } }`. -/
def maskEnv {K : CoreV1} (st : Frame K) : Except String (Frame K) :=
  match st.1.Env with
  | none => pure st
  | some e => do
    let r ← forRange knativeEnvVar e (make e.length (EnvVar.zero K))
    pure ({ st.1 with Env := some r.1 }, { st.2 with Env := some r.2 })

/-- Lines 51-59, `EnvFrom is allowed`:
`if in.EnvFrom != nil { *out = make([]corev1.EnvFromSource, len(*in));
for i := range *in { (*in)[i].DeepCopyInto(&(*out)[i]) } }`. -/
def maskEnvFrom {K : CoreV1} (st : Frame K) : Except String (Frame K) :=
  match st.1.EnvFrom with
  | none => pure st
  | some e => do
    let r ← forRange DeepCopyInto e (make e.length K.EnvFromSource.zero)
    pure ({ st.1 with EnvFrom := some r.1 }, { st.2 with EnvFrom := some r.2 })

/-- Lines 60-61, `Image is allowed`: `out.Image = in.Image`. -/
def maskImage {K : CoreV1} (st : Frame K) : Frame K :=
  (st.1, { st.2 with Image := st.1.Image })

/-- Lines 64-69, `LivenessProbe is allowed with restricted fields`:
`if in.LivenessProbe != nil { *out = new(corev1.Probe); (*in).DeepCopyInto(*out) }`. -/
def maskLivenessProbe {K : CoreV1} (st : Frame K) : Frame K :=
  match st.1.LivenessProbe with
  | none => st
  | some p =>
    let r := DeepCopyInto p K.Probe.zero
    ({ st.1 with LivenessProbe := some r.1 }, { st.2 with LivenessProbe := some r.2 })

/-- Lines 71-77, `Ports is allowed with restricted fields` (`TODO: Enforce
restrictions`):
`if in.Ports != nil { *out = make([]corev1.ContainerPort, len(*in)); copy(*out, *in) }`. -/
def maskPorts {K : CoreV1} (st : Frame K) : Frame K :=
  match st.1.Ports with
  | none => st
  | some a => (st.1, { st.2 with Ports := some (copy (make a.length K.ContainerPort.zero) a) })

/-- Lines 78-84, `ReadinessProbe is allowed with restricted fields` (`TODO:
Enforce restrictions`):
`if in.ReadinessProbe != nil { *out = new(corev1.Probe); (*in).DeepCopyInto(*out) }`. -/
def maskReadinessProbe {K : CoreV1} (st : Frame K) : Frame K :=
  match st.1.ReadinessProbe with
  | none => st
  | some p =>
    let r := DeepCopyInto p K.Probe.zero
    ({ st.1 with ReadinessProbe := some r.1 }, { st.2 with ReadinessProbe := some r.2 })

/-- Lines 85-86, `Resource is allowed`: `in.Resources.DeepCopyInto(&out.Resources)`. -/
def maskResources {K : CoreV1} (st : Frame K) : Frame K :=
  let r := DeepCopyInto st.1.Resources st.2.Resources
  ({ st.1 with Resources := r.1 }, { st.2 with Resources := r.2 })

/-- Lines 87-92, `SecurityContext is allowed with restricted fields`:
`if in.SecurityContext != nil { *out = new(corev1.SecurityContext); (*in).DeepCopyInto(*out) }`. -/
def maskSecurityContext {K : CoreV1} (st : Frame K) : Frame K :=
  match st.1.SecurityContext with
  | none => st
  | some p =>
    let r := DeepCopyInto p K.SecurityContext.zero
    ({ st.1 with SecurityContext := some r.1 }, { st.2 with SecurityContext := some r.2 })

/-- Lines 95-98, `TerminationMessagePath is allowed`, `TerminationMessagePolicy
is allowed`: two plain assignments. -/
def maskTerminationMessage {K : CoreV1} (st : Frame K) : Frame K :=
  let out := { st.2 with TerminationMessagePath := st.1.TerminationMessagePath }
  (st.1, { out with TerminationMessagePolicy := st.1.TerminationMessagePolicy })

/-- Lines 101-108, `VolumeMounts is allowed with restricted fields`:
`if in.VolumeMounts != nil { *out = make([]corev1.VolumeMount, len(*in));
for i := range *in { (*in)[i].DeepCopyInto(&(*out)[i]) } }`. -/
def maskVolumeMounts {K : CoreV1} (st : Frame K) : Except String (Frame K) :=
  match st.1.VolumeMounts with
  | none => pure st
  | some e => do
    let r ← forRange DeepCopyInto e (make e.length K.VolumeMount.zero)
    pure ({ st.1 with VolumeMounts := some r.1 }, { st.2 with VolumeMounts := some r.2 })

/-- The function `KnativeContainer(in *corev1.Container) *corev1.Container`.
The result is `Except.error` when the run panics, and otherwise the pair of
the object behind `in` after the call and the returned pointer. The blocks run
in the order of the source; `ImagePullPolicy`, `Lifecycle`, `Name`, `Stdin`,
`StdinOnce`, `TTY` and `VolumeDevices` are comment-only in the source and
`WorkingDir` is not mentioned there: no statement assigns them. -/
def KnativeContainer {K : CoreV1} (inp : Option (Container K)) :
    Except String (Option (Container K) × Option (Container K)) :=
  match inp with
  -- if in == nil { return nil }
  | none => pure (none, none)
  | some c => do
    -- out := new(corev1.Container)
    let st : Frame K := (c, Container.zero K)
    let st := maskArgs st
    let st := maskCommand st
    let st ← maskEnv st
    let st ← maskEnvFrom st
    let st := maskImage st
    let st := maskLivenessProbe st
    let st := maskPorts st
    let st := maskReadinessProbe st
    let st := maskResources st
    let st := maskSecurityContext st
    let st := maskTerminationMessage st
    let st ← maskVolumeMounts st
    -- return out
    pure (some st.1, some st.2)

/-! ## The volume source mask -/

/-- The struct types behind the members of `corev1.VolumeSource`; their
declarations are not part of this repository. `OtherVolumeSource` stands for
the types of the members other than `Secret`, `ConfigMap` and `NFS`. -/
structure VolumeTypes where
  SecretVolumeSource : GoType
  ConfigMapVolumeSource : GoType
  NFSVolumeSource : GoType
  OtherVolumeSource : GoType

/-- The struct `corev1.VolumeSource`: every member is a pointer. `Secret`,
`ConfigMap` and `NFS` are the members the test names; `Others` lists the
remaining members that are set, by field name (none set is the empty list). -/
structure VolumeSource (V : VolumeTypes) where
  Secret : Option V.SecretVolumeSource.T
  ConfigMap : Option V.ConfigMapVolumeSource.T
  NFS : Option V.NFSVolumeSource.T
  Others : List (String × V.OtherVolumeSource.T)

/-- Modelled from the spec: `VolumeSourceMask` is called by `TestSourceMask` in
`fieldmask_test.go` but its body is not among the source files. The spec has
the mask return a new value that drops any field not on the explicit
allow-list; the allow-list of a volume source is `Secret` and `ConfigMap`,
both carried over as they are, and every other member is left unset. -/
def VolumeSourceMask {V : VolumeTypes} (inp : VolumeSource V) : VolumeSource V :=
  { Secret := inp.Secret, ConfigMap := inp.ConfigMap, NFS := none, Others := [] }

/-! ## Test fixtures -/

/-- A struct value given by its populated fields, as pairs of field path and
printed value; the empty list is the zero value `T{}`. -/
abbrev Fields : Type := List (String × String)

/-- The instance of the volume source parameters used for concrete inputs. -/
def testVolumeTypes : VolumeTypes :=
  { SecretVolumeSource := ⟨Fields, []⟩, ConfigMapVolumeSource := ⟨Fields, []⟩,
    NFSVolumeSource := ⟨Fields, []⟩, OtherVolumeSource := ⟨Fields, []⟩ }

/-- The volume source `in` of `TestSourceMask`. -/
def testSourceIn : VolumeSource testVolumeTypes :=
  { Secret := some [], ConfigMap := some [], NFS := some [], Others := [] }

/-- The volume source `want` of `TestSourceMask`. -/
def testSourceWant : VolumeSource testVolumeTypes :=
  { Secret := some [], ConfigMap := some [], NFS := none, Others := [] }

/-- The instance of the `core/v1` parameters used for concrete inputs: every
struct is given by its populated fields. -/
def testCore : CoreV1 :=
  { ContainerPort := ⟨Fields, []⟩, EnvFromSource := ⟨Fields, []⟩,
    ResourceRequirements := ⟨Fields, []⟩, VolumeMount := ⟨Fields, []⟩,
    VolumeDevice := ⟨Fields, []⟩, Probe := ⟨Fields, []⟩, Lifecycle := ⟨Fields, []⟩,
    SecurityContext := ⟨Fields, []⟩, ObjectFieldSelector := ⟨Fields, []⟩,
    ResourceFieldSelector := ⟨Fields, []⟩, ConfigMapKeySelector := ⟨Fields, []⟩,
    SecretKeySelector := ⟨Fields, []⟩ }

/-- The container `want` of `TestContainerMask`
(`corev1.TerminationMessageReadFile` is the string `File`). -/
def testWant : Container testCore :=
  { Container.zero testCore with
    Args := some ["hello"], Command := some ["world"],
    Env := some [EnvVar.zero testCore], EnvFrom := some [[]],
    Image := "python", LivenessProbe := some [], Ports := some [[]],
    ReadinessProbe := some [], Resources := [], SecurityContext := some [],
    TerminationMessagePath := "/", TerminationMessagePolicy := "File",
    VolumeMounts := some [[]] }

/-- The container `in` of `TestContainerMask`: `want` with `Name`, `Stdin`,
`StdinOnce` and `TTY` set. -/
def testIn : Container testCore :=
  { testWant with Name := "foo", Stdin := true, StdinOnce := true, TTY := true }

/-- An environment variable that takes its value from a field reference. -/
def testFieldRefVar : EnvVar testCore :=
  { Name := "POD_NAME", Value := "",
    ValueFrom := some { EnvVarSource.zero testCore with
      FieldRef := some [("FieldPath", "metadata.name")] } }

/-- An environment variable that takes its value from a secret key, with a
resource field reference next to it. -/
def testSecretVar : EnvVar testCore :=
  { Name := "TOKEN", Value := "",
    ValueFrom := some { EnvVarSource.zero testCore with
      ResourceFieldRef := some [("Resource", "limits.cpu")],
      SecretKeyRef := some [("Name", "creds"), ("Key", "token")] } }

/-- An environment variable that takes its value from a secret key and from
nothing else. -/
def testSecretOnlyVar : EnvVar testCore :=
  { Name := "TOKEN", Value := "",
    ValueFrom := some { EnvVarSource.zero testCore with
      SecretKeyRef := some [("Name", "creds"), ("Key", "token")] } }

/-- The container `want` with one env var that reads a secret key: only allowed
fields are populated. -/
def testSanitized : Container testCore :=
  { testWant with Env := some [testSecretOnlyVar] }

/-- A container with two environment variables and a plain one. -/
def testEnvContainer : Container testCore :=
  { Container.zero testCore with
    Image := "python",
    Env := some [testFieldRefVar, testSecretVar,
      { Name := "PORT", Value := "8080", ValueFrom := none }] }

/-- The container the mask returns on `testEnvContainer`. -/
def testEnvMasked : Container testCore :=
  { Container.zero testCore with
    Image := "python",
    Env := some [
      { Name := "POD_NAME", Value := "", ValueFrom := some (EnvVarSource.zero testCore) },
      testSecretOnlyVar,
      { Name := "PORT", Value := "8080", ValueFrom := none }] }

/-- A container whose liveness probe, security context and volume mount each
have a populated sub-field. -/
def testRestricted : Container testCore :=
  { Container.zero testCore with
    LivenessProbe := some [("InitialDelaySeconds", "5")],
    SecurityContext := some [("Privileged", "true")],
    VolumeMounts := some [[("Name", "data"), ("MountPropagation", "Bidirectional")]] }

/-! ## Closed forms -/

/-- What `knativeEnvVarSource` leaves behind `out`, as a function of `in`:
the two allowed references, the other two nil. -/
def maskedEnvVarSource {K : CoreV1} (s : EnvVarSource K) : EnvVarSource K :=
  { FieldRef := none, ResourceFieldRef := none,
    ConfigMapKeyRef := s.ConfigMapKeyRef, SecretKeyRef := s.SecretKeyRef }

/-- What `knativeEnvVar` leaves behind a zeroed `out`, as a function of `in`. -/
def maskedEnvVar {K : CoreV1} (e : EnvVar K) : EnvVar K :=
  { Name := e.Name, Value := e.Value, ValueFrom := e.ValueFrom.map maskedEnvVarSource }

/-- The container `KnativeContainer` returns, as a function of the input
container (see `KnativeContainer_some`). -/
def maskedContainer {K : CoreV1} (c : Container K) : Container K :=
  { Name := "", Image := c.Image, Command := c.Command, Args := c.Args, WorkingDir := "",
    Ports := c.Ports, EnvFrom := c.EnvFrom, Env := c.Env.map (List.map maskedEnvVar),
    Resources := c.Resources,
    VolumeMounts := c.VolumeMounts, VolumeDevices := none,
    LivenessProbe := c.LivenessProbe, ReadinessProbe := c.ReadinessProbe, Lifecycle := none,
    TerminationMessagePath := c.TerminationMessagePath,
    TerminationMessagePolicy := c.TerminationMessagePolicy,
    ImagePullPolicy := "", SecurityContext := c.SecurityContext,
    Stdin := false, StdinOnce := false, TTY := false }

/-! ## Shape of slices -/

/-- Two slices have the same shape: one is nil exactly when the other is, and
when both are non-nil they have the same length. -/
def sameShape {α β : Type} (out : Option (List α)) (inp : Option (List β)) : Prop :=
  (out = none ↔ inp = none) ∧
    ∀ a b, out = some a → inp = some b → a.length = b.length

/-! ## Release-mode traffic targets -/

/-- What a traffic target refers to: a Revision by name, or a Configuration,
which resolves to that Configuration's latest ready Revision. -/
inductive RevisionRef where
  | revision (name : String)
  | configuration (name : String)
  deriving DecidableEq

/-- A `TrafficTarget{name, revisionRef, percent}` of a Route. -/
structure TrafficTarget where
  name : String
  revisionRef : RevisionRef
  percent : Int
  deriving DecidableEq

/-- The `"latest"` target of a Release-mode Route: it names the first pinned
Revision when that is the Configuration's latest created Revision, and tracks
the Configuration otherwise; it is reachable by name and takes no share of the
traffic. -/
def latestTarget (configuration latestCreated first : String) : TrafficTarget :=
  { name := "latest",
    revisionRef :=
      if first = latestCreated then RevisionRef.revision first
      else RevisionRef.configuration configuration,
    percent := 0 }

/-- Modelled from the spec: the Release-mode target synthesis of the Service
Controller, which `TestReleaseService` drives through `UpdateReleaseService`
but whose code is not among the source files. Given the ordered list of pinned
revisions and the rollout percentage `P`: one revision receives 100% under
`"current"`; of two, the first receives `100 - P` under `"current"` and the
second `P` under `"next"` (also for `P = 0`), and both are additionally exposed
under their own revision names; `"latest"` is exposed as well. The additional
targets are reachable by name only and carry 0%. Lists of any other length
synthesize nothing. -/
def releaseTraffic (configuration latestCreated : String) (revisions : List String)
    (P : Int) : Option (List TrafficTarget) :=
  match revisions with
  | [r1] =>
    some [{ name := "current", revisionRef := RevisionRef.revision r1, percent := 100 },
          latestTarget configuration latestCreated r1]
  | [r1, r2] =>
    some [{ name := "current", revisionRef := RevisionRef.revision r1, percent := 100 - P },
          { name := "next", revisionRef := RevisionRef.revision r2, percent := P },
          { name := r1, revisionRef := RevisionRef.revision r1, percent := 0 },
          { name := r2, revisionRef := RevisionRef.revision r2, percent := 0 },
          latestTarget configuration latestCreated r1]
  | _ => none

/-- The target of a Route with the given name, the first one in order. -/
def targetNamed (traffic : List TrafficTarget) (name : String) : Option TrafficTarget :=
  traffic.find? (fun t => decide (t.name = name))

/-- The sum of the percentages of the targets with a non-empty name, which the
Route Controller requires to be 100. -/
def namedPercentSum (traffic : List TrafficTarget) : Int :=
  ((traffic.filter (fun t => decide (t.name ≠ ""))).map (fun t => t.percent)).sum

/-! ## Generations of a Configuration -/

/-- The revision template of a Service or Configuration: the image and the
template's metadata. -/
structure RevisionTemplate where
  Image : String
  Labels : List (String × String)
  Annotations : List (String × String)
  deriving DecidableEq

/-- The deterministic name `<configuration-name>-<generation>` of a Revision,
kept as its two parts. -/
structure RevisionName where
  configuration : String
  generation : Nat
  deriving DecidableEq

/-- A Revision: an immutable snapshot carrying the generation of its
Configuration at creation time. -/
structure Revision where
  name : RevisionName
  generation : Nat
  template : RevisionTemplate
  deriving DecidableEq

/-- A Configuration together with the Revisions it has created, oldest first. -/
structure Configuration where
  name : String
  template : RevisionTemplate
  generation : Nat
  revisions : List Revision
  LatestCreatedRevisionName : Option RevisionName

/-- Modelled from the spec: creation of a Revision in the object store, whose
code is not among the source files. Creation is idempotent by name: a
duplicate create attempt is treated as success and adds nothing. -/
def createRevision (store : List Revision) (r : Revision) : List Revision :=
  if store.any (fun x => decide (x.name = r.name)) then store else store ++ [r]

/-- Modelled from the spec: one reconcile of the Configuration Controller,
whose code is not among the source files. It creates the Revision named
`<configuration-name>-<generation>` that carries the current generation and
template, and records it as the latest created one. -/
def Configuration.reconcile (c : Configuration) : Configuration :=
  { c with
    revisions := createRevision c.revisions
      { name := { configuration := c.name, generation := c.generation },
        generation := c.generation, template := c.template },
    LatestCreatedRevisionName := some { configuration := c.name, generation := c.generation } }

/-- Modelled from the spec: creation of a Service's Configuration (the Service
Controller mirrors the Service's revision template into it), whose code is not
among the source files. The Configuration starts at generation 1 and is
reconciled. -/
def Configuration.create (name : String) (t : RevisionTemplate) : Configuration :=
  Configuration.reconcile
    { name := name, template := t, generation := 1, revisions := [],
      LatestCreatedRevisionName := none }

/-- Modelled from the spec: the Configuration Controller observing the template
`t`, whose code is not among the source files. A spec change, detected by a
diff, increments `generation`; then the Configuration is reconciled. Without a
change this is a duplicate reconcile. -/
def Configuration.update (c : Configuration) (t : RevisionTemplate) : Configuration :=
  if t = c.template then Configuration.reconcile c
  else Configuration.reconcile { c with template := t, generation := c.generation + 1 }

/-- The Configuration of a Service created with template `t0`, after the given
sequence of template updates. -/
def Configuration.run (name : String) (t0 : RevisionTemplate)
    (updates : List RevisionTemplate) : Configuration :=
  updates.foldl Configuration.update (Configuration.create name t0)

/-- The generations of the Revisions a Configuration has created, oldest first. -/
def Configuration.generations (c : Configuration) : List Nat :=
  c.revisions.map (fun r => r.generation)

/-- The invariant of a Configuration and its Revisions: every Revision is named
after this Configuration and its own generation, the generations of the
Revisions are `1, 2, ..., generation` in creation order, and the latest created
one is recorded. -/
def Configuration.Inv (c : Configuration) : Prop :=
  (∀ r ∈ c.revisions, r.name = { configuration := c.name, generation := r.generation }) ∧
  c.generations = List.range' 1 c.generation ∧
  c.LatestCreatedRevisionName = some { configuration := c.name, generation := c.generation }

/-- The template `TestUpdateRevisionTemplateSpecMetadata` creates its Service
with. -/
def testTemplate1 : RevisionTemplate :=
  { Image := "pizzaplanetv1", Labels := [], Annotations := [] }

/-- The template after the test's first update, which sets labels. -/
def testTemplate2 : RevisionTemplate :=
  { testTemplate1 with Labels := [("labelX", "abc"), ("labelY", "def")] }

/-- The template after the test's second update, which sets annotations. -/
def testTemplate3 : RevisionTemplate :=
  { testTemplate2 with Annotations := [("annotationA", "123"), ("annotationB", "456")] }

/-! ## Lemmas on the built-ins -/

theorem copy_make {α : Type} (z : α) (a : List α) : copy (make a.length z) a = a := by
  simp [copy, make]

theorem index_eq_ok {α : Type} (xs : List α) (i : Nat) (h : i < xs.length) :
    index xs i = Except.ok (xs.get ⟨i, h⟩) := by
  simp [index, List.getElem?_eq_getElem h]

theorem set_get_self {α : Type} (l : List α) (k : Nat) (h : k < l.length) :
    l.set k (l.get ⟨k, h⟩) = l := by
  induction l generalizing k with
  | nil => simp at h
  | cons x xs ih =>
    cases k with
    | zero => rfl
    | succ k =>
      have h' : k < xs.length := by simpa using h
      simpa using ih k h'

theorem getElem?_take_append_replicate {β : Type} (l : List β) (z : β) (k n : Nat)
    (hn : l.length = n) (hk : k < n) :
    (l.take k ++ List.replicate (n - k) z)[k]? = some z := by
  have hlen : (l.take k).length = k := by
    simp [List.length_take, hn, Nat.min_eq_left (Nat.le_of_lt hk)]
  have hle : (l.take k).length ≤ k := Nat.le_of_eq hlen
  rw [List.getElem?_append_right hle, hlen, Nat.sub_self]
  have : n - k = (n - (k + 1)) + 1 := by omega
  rw [this, List.replicate_succ]
  simp

theorem set_take_append_replicate {β : Type} (l : List β) (z x : β) (k n : Nat)
    (hn : l.length = n) (hx : l[k]? = some x) :
    (l.take k ++ List.replicate (n - k) z).set k x
      = l.take (k + 1) ++ List.replicate (n - (k + 1)) z := by
  have hk : k < n := by
    rw [← hn]
    exact (List.getElem?_eq_some_iff.mp hx).1
  have hlen : (l.take k).length = k := by
    simp [List.length_take, hn, Nat.min_eq_left (Nat.le_of_lt hk)]
  have hle : (l.take k).length ≤ k := Nat.le_of_eq hlen
  have hrep : List.replicate (n - k) z = z :: List.replicate (n - (k + 1)) z := by
    have : n - k = (n - (k + 1)) + 1 := by omega
    rw [this, List.replicate_succ]
  rw [hrep, List.set_append_right _ _ hle, hlen, Nat.sub_self, List.set_cons_zero,
    List.take_succ, hx]
  simp only [Option.toList, List.append_assoc, List.singleton_append]

/-- The loop invariant of `forRange` on a destination fresh from `make`: after
the first `k` iterations the source is unchanged and the destination holds the
images of the first `k` elements followed by zero values. -/
theorem forRange_invariant {α β : Type} (body : α → β → α × β) (g : α → β) (z : β)
    (hb : ∀ a, body a z = (a, g a)) (inp : List α) (k : Nat) (hk : k ≤ inp.length) :
    (List.range k).foldlM
      (fun (st : List α × List β) (i : Nat) => do
        let a ← index st.1 i
        let b ← index st.2 i
        let r := body a b
        pure (st.1.set i r.1, st.2.set i r.2))
      (inp, make inp.length z)
    = Except.ok (inp, (inp.map g).take k ++ List.replicate (inp.length - k) z) := by
  induction k with
  | zero => simp [make]; rfl
  | succ k ih =>
    have hk' : k < inp.length := hk
    rw [List.range_succ, List.foldlM_append, ih (Nat.le_of_lt hk')]
    have h1 : index inp k = Except.ok (inp.get ⟨k, hk'⟩) := index_eq_ok inp k hk'
    have h2 : index ((inp.map g).take k ++ List.replicate (inp.length - k) z) k
        = Except.ok z := by
      have := getElem?_take_append_replicate (inp.map g) z k inp.length (by simp) hk'
      simp [index, this]
    have hx : (inp.map g)[k]? = some (g (inp.get ⟨k, hk'⟩)) := by
      simp [List.getElem?_eq_getElem hk']
    have h3 := set_take_append_replicate (inp.map g) z _ k inp.length (by simp) hx
    have h5 : inp.set k (inp.get ⟨k, hk'⟩) = inp := set_get_self inp k hk'
    simp only [List.foldlM_cons, List.foldlM_nil, bind, Except.bind, pure, Except.pure,
      h1, h2, hb, h5, h3]

theorem forRange_eq {α β : Type} (body : α → β → α × β) (g : α → β) (z : β)
    (hb : ∀ a, body a z = (a, g a)) (inp : List α) :
    forRange body inp (make inp.length z) = Except.ok (inp, inp.map g) := by
  have h := forRange_invariant body g z hb inp inp.length (Nat.le_refl _)
  have ht : (inp.map g).take inp.length = inp.map g :=
    List.take_of_length_le (by simp)
  rw [Nat.sub_self, List.replicate_zero, List.append_nil, ht] at h
  exact h

theorem knativeEnvVarSource_eq {K : CoreV1} (s : EnvVarSource K) :
    knativeEnvVarSource s (EnvVarSource.zero K) = (s, maskedEnvVarSource s) := by
  obtain ⟨f, r, c, k⟩ := s
  cases c <;> cases k <;> rfl

theorem knativeEnvVar_eq {K : CoreV1} (e : EnvVar K) :
    knativeEnvVar e (EnvVar.zero K) = (e, maskedEnvVar e) := by
  obtain ⟨n, v, f⟩ := e
  cases f with
  | none => rfl
  | some s => simp [knativeEnvVar, knativeEnvVarSource_eq, maskedEnvVar, EnvVar.zero]

/-! ## The blocks of `KnativeContainer`, one by one -/

theorem maskArgs_eq {K : CoreV1} (c o : Container K) (h : o.Args = none) :
    maskArgs (c, o) = (c, { o with Args := c.Args }) := by
  obtain ⟨_, _, _, a, _, _, _, _, _, _, _, _, _, _, _, _, _, _, _, _, _⟩ := c
  cases a with
  | none => cases o; cases h; rfl
  | some a => simp [maskArgs, copy_make]

theorem maskCommand_eq {K : CoreV1} (c o : Container K) (h : o.Command = none) :
    maskCommand (c, o) = (c, { o with Command := c.Command }) := by
  obtain ⟨_, _, a, _, _, _, _, _, _, _, _, _, _, _, _, _, _, _, _, _, _⟩ := c
  cases a with
  | none => cases o; cases h; rfl
  | some a => simp [maskCommand, copy_make]

theorem maskEnv_eq {K : CoreV1} (c o : Container K) (h : o.Env = none) :
    maskEnv (c, o) = Except.ok (c, { o with Env := c.Env.map (List.map maskedEnvVar) }) := by
  obtain ⟨_, _, _, _, _, _, _, a, _, _, _, _, _, _, _, _, _, _, _, _, _⟩ := c
  cases a with
  | none => cases o; cases h; rfl
  | some a =>
    simp only [maskEnv, forRange_eq knativeEnvVar maskedEnvVar (EnvVar.zero K) knativeEnvVar_eq]
    rfl

theorem maskEnvFrom_eq {K : CoreV1} (c o : Container K) (h : o.EnvFrom = none) :
    maskEnvFrom (c, o) = Except.ok (c, { o with EnvFrom := c.EnvFrom }) := by
  obtain ⟨_, _, _, _, _, _, a, _, _, _, _, _, _, _, _, _, _, _, _, _, _⟩ := c
  cases a with
  | none => cases o; cases h; rfl
  | some a =>
    simp only [maskEnvFrom,
      forRange_eq DeepCopyInto id K.EnvFromSource.zero (fun _ => rfl), List.map_id]
    rfl

theorem maskLivenessProbe_eq {K : CoreV1} (c o : Container K) (h : o.LivenessProbe = none) :
    maskLivenessProbe (c, o) = (c, { o with LivenessProbe := c.LivenessProbe }) := by
  obtain ⟨_, _, _, _, _, _, _, _, _, _, _, a, _, _, _, _, _, _, _, _, _⟩ := c
  cases a with
  | none => cases o; cases h; rfl
  | some a => rfl

theorem maskPorts_eq {K : CoreV1} (c o : Container K) (h : o.Ports = none) :
    maskPorts (c, o) = (c, { o with Ports := c.Ports }) := by
  obtain ⟨_, _, _, _, _, a, _, _, _, _, _, _, _, _, _, _, _, _, _, _, _⟩ := c
  cases a with
  | none => cases o; cases h; rfl
  | some a => simp [maskPorts, copy_make]

theorem maskReadinessProbe_eq {K : CoreV1} (c o : Container K) (h : o.ReadinessProbe = none) :
    maskReadinessProbe (c, o) = (c, { o with ReadinessProbe := c.ReadinessProbe }) := by
  obtain ⟨_, _, _, _, _, _, _, _, _, _, _, _, a, _, _, _, _, _, _, _, _⟩ := c
  cases a with
  | none => cases o; cases h; rfl
  | some a => rfl

theorem maskResources_eq {K : CoreV1} (c o : Container K) :
    maskResources (c, o) = (c, { o with Resources := c.Resources }) := rfl

theorem maskSecurityContext_eq {K : CoreV1} (c o : Container K)
    (h : o.SecurityContext = none) :
    maskSecurityContext (c, o) = (c, { o with SecurityContext := c.SecurityContext }) := by
  obtain ⟨_, _, _, _, _, _, _, _, _, _, _, _, _, _, _, _, _, a, _, _, _⟩ := c
  cases a with
  | none => cases o; cases h; rfl
  | some a => rfl

theorem maskVolumeMounts_eq {K : CoreV1} (c o : Container K) (h : o.VolumeMounts = none) :
    maskVolumeMounts (c, o) = Except.ok (c, { o with VolumeMounts := c.VolumeMounts }) := by
  obtain ⟨_, _, _, _, _, _, _, _, _, a, _, _, _, _, _, _, _, _, _, _, _⟩ := c
  cases a with
  | none => cases o; cases h; rfl
  | some a =>
    simp only [maskVolumeMounts,
      forRange_eq DeepCopyInto id K.VolumeMount.zero (fun _ => rfl), List.map_id]
    rfl

/-- The run of `KnativeContainer` on a non-nil input, in closed form: no panic,
the object behind `in` is as before, and the result is `maskedContainer`. -/
theorem KnativeContainer_some {K : CoreV1} (c : Container K) :
    KnativeContainer (some c) = Except.ok (some c, some (maskedContainer c)) := by
  unfold KnativeContainer
  simp only []
  rw [maskArgs_eq _ _ rfl, maskCommand_eq _ _ rfl, maskEnv_eq _ _ rfl]
  simp only [bind, Except.bind]
  rw [maskEnvFrom_eq _ _ rfl]
  simp only [maskImage]
  rw [maskLivenessProbe_eq _ _ rfl, maskPorts_eq _ _ rfl, maskReadinessProbe_eq _ _ rfl,
    maskResources_eq, maskSecurityContext_eq _ _ rfl]
  simp only [maskTerminationMessage]
  rw [maskVolumeMounts_eq _ _ rfl]
  rfl

theorem KnativeContainer_none {K : CoreV1} :
    KnativeContainer (none : Option (Container K)) = Except.ok (none, none) := rfl

/-! ## Properties of the closed forms -/

theorem maskedEnvVarSource_of_allowed {K : CoreV1} (s : EnvVarSource K)
    (h1 : s.FieldRef = none) (h2 : s.ResourceFieldRef = none) : maskedEnvVarSource s = s := by
  cases s
  cases h1
  cases h2
  rfl

theorem maskedEnvVar_of_allowed {K : CoreV1} (e : EnvVar K)
    (h : ∀ vf, e.ValueFrom = some vf → vf.FieldRef = none ∧ vf.ResourceFieldRef = none) :
    maskedEnvVar e = e := by
  obtain ⟨n, v, f⟩ := e
  cases f with
  | none => rfl
  | some s =>
    have hs := h s rfl
    simp [maskedEnvVar, maskedEnvVarSource_of_allowed s hs.1 hs.2]

theorem map_maskedEnvVar_of_allowed {K : CoreV1} (env : List (EnvVar K))
    (h : ∀ e vf, e ∈ env → e.ValueFrom = some vf →
      vf.FieldRef = none ∧ vf.ResourceFieldRef = none) :
    env.map maskedEnvVar = env := by
  induction env with
  | nil => rfl
  | cons e es ih =>
    rw [List.map_cons, maskedEnvVar_of_allowed e (fun vf hvf => h e vf (by simp) hvf),
      ih (fun e' vf he' hvf => h e' vf (by simp [he']) hvf)]

theorem maskedEnvVar_allowed {K : CoreV1} (e : EnvVar K) (vf : EnvVarSource K)
    (h : (maskedEnvVar e).ValueFrom = some vf) :
    vf.FieldRef = none ∧ vf.ResourceFieldRef = none := by
  obtain ⟨n, v, f⟩ := e
  cases f with
  | none => simp [maskedEnvVar] at h
  | some s =>
    simp only [maskedEnvVar, Option.map_some', Option.some.injEq] at h
    subst h
    exact ⟨rfl, rfl⟩

theorem maskedEnvVar_idem {K : CoreV1} (e : EnvVar K) :
    maskedEnvVar (maskedEnvVar e) = maskedEnvVar e :=
  maskedEnvVar_of_allowed _ (fun vf h => maskedEnvVar_allowed e vf h)

theorem maskedContainer_idem {K : CoreV1} (c : Container K) :
    maskedContainer (maskedContainer c) = maskedContainer c := by
  obtain ⟨_, _, _, _, _, _, _, env, _, _, _, _, _, _, _, _, _, _, _, _, _⟩ := c
  cases env with
  | none => rfl
  | some env =>
    simp only [maskedContainer, Option.map_some', List.map_map]
    have : (maskedEnvVar ∘ maskedEnvVar : EnvVar K → EnvVar K) = maskedEnvVar :=
      funext maskedEnvVar_idem
    rw [this]

/-! ## Claims on `KnativeContainer` -/

/-- C1: for every non-nil input container, the returned container has every
disallowed field zeroed whatever the input holds there: `Name` and
`ImagePullPolicy` are empty, `Lifecycle` is nil, `Stdin`, `StdinOnce` and `TTY`
are false and `VolumeDevices` is nil. -/
theorem KnativeContainer_disallowed_zeroed {K : CoreV1} (c : Container K) :
    ∃ out, KnativeContainer (some c) = Except.ok (some c, some out) ∧
      out.Name = "" ∧ out.ImagePullPolicy = "" ∧ out.Lifecycle = none ∧
      out.Stdin = false ∧ out.StdinOnce = false ∧ out.TTY = false ∧
      out.VolumeDevices = none :=
  ⟨maskedContainer c, KnativeContainer_some c, rfl, rfl, rfl, rfl, rfl, rfl, rfl⟩

/-- C2: for every non-nil input container, the fields allowed verbatim are
carried over unchanged: the output's `Args`, `Command`, `EnvFrom`, `Image`,
`Resources`, `TerminationMessagePath` and `TerminationMessagePolicy` are equal
in value to the input's. -/
theorem KnativeContainer_allowed_verbatim {K : CoreV1} (c : Container K) :
    ∃ out, KnativeContainer (some c) = Except.ok (some c, some out) ∧
      out.Args = c.Args ∧ out.Command = c.Command ∧ out.EnvFrom = c.EnvFrom ∧
      out.Image = c.Image ∧ out.Resources = c.Resources ∧
      out.TerminationMessagePath = c.TerminationMessagePath ∧
      out.TerminationMessagePolicy = c.TerminationMessagePolicy :=
  ⟨maskedContainer c, KnativeContainer_some c, rfl, rfl, rfl, rfl, rfl, rfl, rfl⟩

/-- C3: the container mask is the identity on already-sanitized containers: when
`Name`, `WorkingDir`, `ImagePullPolicy`, `Lifecycle`, `Stdin`, `StdinOnce`, `TTY`
and `VolumeDevices` are all zero and no env var has a `ValueFrom` that carries a
`FieldRef` or a `ResourceFieldRef`, the output is equal in value to the input
(nil slices stay nil, empty slices stay empty). -/
theorem KnativeContainer_fixed_point {K : CoreV1} (c : Container K)
    (hName : c.Name = "") (hWorkingDir : c.WorkingDir = "")
    (hImagePullPolicy : c.ImagePullPolicy = "") (hLifecycle : c.Lifecycle = none)
    (hStdin : c.Stdin = false) (hStdinOnce : c.StdinOnce = false) (hTTY : c.TTY = false)
    (hVolumeDevices : c.VolumeDevices = none)
    (hEnv : ∀ env e vf, c.Env = some env → e ∈ env → e.ValueFrom = some vf →
      vf.FieldRef = none ∧ vf.ResourceFieldRef = none) :
    KnativeContainer (some c) = Except.ok (some c, some c) := by
  rw [KnativeContainer_some]
  obtain ⟨_, _, _, _, _, _, _, env, _, _, _, _, _, _, _, _, _, _, _, _, _⟩ := c
  cases hName
  cases hWorkingDir
  cases hImagePullPolicy
  cases hLifecycle
  cases hStdin
  cases hStdinOnce
  cases hTTY
  cases hVolumeDevices
  cases env with
  | none => rfl
  | some env =>
    have := map_maskedEnvVar_of_allowed env (fun e vf he hvf => hEnv env e vf rfl he hvf)
    simp only [maskedContainer, Option.map_some', this]

/-- Witness of C3: the container `want` of `TestContainerMask` is a fixed point
of the mask, and so is a container whose only env var reads a secret key. -/
theorem KnativeContainer_fixed_point_witness :
    KnativeContainer (some testWant) = Except.ok (some testWant, some testWant) ∧
    KnativeContainer (some testSanitized)
      = Except.ok (some testSanitized, some testSanitized) :=
  ⟨KnativeContainer_fixed_point testWant rfl rfl rfl rfl rfl rfl rfl rfl
      (by
        intro env e vf henv he hvf
        simp only [testWant, Option.some.injEq] at henv
        subst henv
        simp only [List.mem_singleton] at he
        subst he
        simp [EnvVar.zero] at hvf),
   KnativeContainer_fixed_point testSanitized rfl rfl rfl rfl rfl rfl rfl rfl
      (by
        intro env e vf henv he hvf
        simp only [testSanitized, Option.some.injEq] at henv
        subst henv
        simp only [List.mem_singleton] at he
        subst he
        simp only [testSecretOnlyVar, Option.some.injEq] at hvf
        subst hvf
        exact ⟨rfl, rfl⟩)⟩

/-- C4: `Env` is carried over with no entry lost or reordered: for every non-nil
input container with non-nil `Env`, the output's `Env` has the same length as
the input's, and at every index the output entry's `Name` and `Value` equal the
input entry's. -/
theorem KnativeContainer_env_entries {K : CoreV1} (c : Container K) (env : List (EnvVar K))
    (hEnv : c.Env = some env) :
    ∃ out env', KnativeContainer (some c) = Except.ok (some c, some out) ∧
      out.Env = some env' ∧ env'.length = env.length ∧
      ∀ (i : Nat) (h : i < env.length) (h' : i < env'.length),
        (env'.get ⟨i, h'⟩).Name = (env.get ⟨i, h⟩).Name ∧
        (env'.get ⟨i, h'⟩).Value = (env.get ⟨i, h⟩).Value := by
  refine ⟨maskedContainer c, env.map maskedEnvVar, KnativeContainer_some c, ?_, ?_, ?_⟩
  · simp [maskedContainer, hEnv]
  · simp
  · intro i h h'
    simp [maskedEnvVar]

/-- Witness of C4: a container with three env vars, two of them with a
`ValueFrom`. -/
theorem KnativeContainer_env_entries_witness :
    testEnvContainer.Env = some [testFieldRefVar, testSecretVar,
      { Name := "PORT", Value := "8080", ValueFrom := none }] ∧
    ∃ out env', KnativeContainer (some testEnvContainer)
        = Except.ok (some testEnvContainer, some out) ∧
      out.Env = some env' ∧ env'.length = 3 ∧
      ∀ (i : Nat) (h : i < 3) (h' : i < env'.length),
        (env'.get ⟨i, h'⟩).Name
          = (([testFieldRefVar, testSecretVar,
                { Name := "PORT", Value := "8080", ValueFrom := none }] :
              List (EnvVar testCore)).get ⟨i, h⟩).Name ∧
        (env'.get ⟨i, h'⟩).Value
          = (([testFieldRefVar, testSecretVar,
                { Name := "PORT", Value := "8080", ValueFrom := none }] :
              List (EnvVar testCore)).get ⟨i, h⟩).Value :=
  ⟨rfl, KnativeContainer_env_entries testEnvContainer _ rfl⟩

/-- C5: `FieldRef` and `ResourceFieldRef` never survive the mask: for every
input container the call returns, and every env var of the output whose
`ValueFrom` is non-nil has `FieldRef = nil` and `ResourceFieldRef = nil` there,
whatever the input env var held. -/
theorem KnativeContainer_no_field_refs {K : CoreV1} (inp : Option (Container K)) :
    ∃ r, KnativeContainer inp = Except.ok (inp, r) ∧
      ∀ out env e vf, r = some out → out.Env = some env → e ∈ env →
        e.ValueFrom = some vf → vf.FieldRef = none ∧ vf.ResourceFieldRef = none := by
  cases inp with
  | none =>
    refine ⟨none, KnativeContainer_none, ?_⟩
    intro out env e vf h
    cases h
  | some c =>
    refine ⟨some (maskedContainer c), KnativeContainer_some c, ?_⟩
    intro out env e vf hout henv he hvf
    cases hout
    cases hc : c.Env with
    | none => simp [maskedContainer, hc] at henv
    | some env0 =>
      simp only [maskedContainer, hc, Option.map_some', Option.some.injEq] at henv
      subst henv
      obtain ⟨e0, _, rfl⟩ := List.mem_map.mp he
      exact maskedEnvVar_allowed e0 vf hvf

/-- Witness of C5: on a container whose first env var holds a `FieldRef`, the
output's first env var has a non-nil `ValueFrom` with both references nil. -/
theorem KnativeContainer_no_field_refs_witness :
    KnativeContainer (some testEnvContainer)
      = Except.ok (some testEnvContainer, some testEnvMasked) ∧
    testFieldRefVar.ValueFrom
      = some { EnvVarSource.zero testCore with
          FieldRef := some [("FieldPath", "metadata.name")] } ∧
    (EnvVarSource.zero testCore).FieldRef = none ∧
    (EnvVarSource.zero testCore).ResourceFieldRef = none := by
  obtain ⟨r, hr, h⟩ := KnativeContainer_no_field_refs (some testEnvContainer)
  have hrun : KnativeContainer (some testEnvContainer)
      = Except.ok (some testEnvContainer, some testEnvMasked) := rfl
  have hr' : r = some testEnvMasked := by
    rw [hrun] at hr
    injection hr with h1
    injection h1 with _ h2
    exact h2.symm
  exact ⟨hrun, rfl,
    h testEnvMasked _
      { Name := "POD_NAME", Value := "", ValueFrom := some (EnvVarSource.zero testCore) }
      (EnvVarSource.zero testCore) hr' rfl (by simp) rfl⟩

/-- C6 (what the code does): for every non-nil input container the output's
`LivenessProbe`, `SecurityContext` and `VolumeMounts` are equal in value to the
input's, every sub-field included, although the source comments them as
allowed with restricted fields; so no input has a populated sub-field of one of
them missing from the output. On `testRestricted` the output is the input. -/
theorem KnativeContainer_restricted_fields_copied_whole :
    (∀ (K : CoreV1) (c : Container K),
      ∃ out, KnativeContainer (some c) = Except.ok (some c, some out) ∧
        out.LivenessProbe = c.LivenessProbe ∧ out.SecurityContext = c.SecurityContext ∧
        out.VolumeMounts = c.VolumeMounts) ∧
    KnativeContainer (some testRestricted)
      = Except.ok (some testRestricted, some testRestricted) :=
  ⟨fun _ c => ⟨maskedContainer c, KnativeContainer_some c, rfl, rfl, rfl⟩, rfl⟩

/-- C7: `KnativeContainer` never mutates its input: for every input, nil or
not, the call returns and the object behind `in` (every field, the elements of
its slices and the targets of its pointers included) has the same value after
the call as before it. -/
theorem KnativeContainer_input_unchanged {K : CoreV1} (inp : Option (Container K)) :
    ∃ r, KnativeContainer inp = Except.ok (inp, r) := by
  cases inp with
  | none => exact ⟨none, KnativeContainer_none⟩
  | some c => exact ⟨some (maskedContainer c), KnativeContainer_some c⟩

/-- C8: the container mask is idempotent: for every input, masking the result
of the mask returns that result again. -/
theorem KnativeContainer_idempotent {K : CoreV1} (inp : Option (Container K)) :
    ∃ r, KnativeContainer inp = Except.ok (inp, r) ∧
      KnativeContainer r = Except.ok (r, r) := by
  cases inp with
  | none => exact ⟨none, KnativeContainer_none, KnativeContainer_none⟩
  | some c =>
    refine ⟨some (maskedContainer c), KnativeContainer_some c, ?_⟩
    rw [KnativeContainer_some, maskedContainer_idem]

/-- C9: `KnativeContainer` never fails or rejects: for every input the run ends
without a panic, and the returned pointer is nil exactly when the input is nil
(so every non-nil input, whatever its fields hold, yields a non-nil
container). -/
theorem KnativeContainer_total {K : CoreV1} (inp : Option (Container K)) :
    ∃ r, KnativeContainer inp = Except.ok (inp, r) ∧ (r = none ↔ inp = none) := by
  cases inp with
  | none => exact ⟨none, KnativeContainer_none, Iff.rfl⟩
  | some c =>
    exact ⟨some (maskedContainer c), KnativeContainer_some c,
      ⟨fun h => Option.noConfusion h, fun h => Option.noConfusion h⟩⟩

/-! ## Claim on `VolumeSourceMask` -/

/-- C10: for every volume source, `VolumeSourceMask` returns one whose `Secret`
and `ConfigMap` are equal in value to the input's and in which every other
volume source is unset; on the input of `TestSourceMask`, which sets `Secret`,
`ConfigMap` and `NFS`, the result sets `Secret` and `ConfigMap` only. -/
theorem VolumeSourceMask_allow_list :
    (∀ (V : VolumeTypes) (inp : VolumeSource V),
      (VolumeSourceMask inp).Secret = inp.Secret ∧
      (VolumeSourceMask inp).ConfigMap = inp.ConfigMap ∧
      (VolumeSourceMask inp).NFS = none ∧ (VolumeSourceMask inp).Others = []) ∧
    VolumeSourceMask testSourceIn = testSourceWant :=
  ⟨fun _ _ => ⟨rfl, rfl, rfl, rfl⟩, rfl⟩

/-! ## Claims on the env value sources, `WorkingDir` and the shape of slices -/

theorem sameShape_refl {α : Type} (x : Option (List α)) : sameShape x x :=
  ⟨Iff.rfl, fun a b ha hb => by
    rw [ha] at hb
    cases hb
    rfl⟩

theorem sameShape_map {α β : Type} (f : β → α) (x : Option (List β)) :
    sameShape (x.map (List.map f)) x := by
  cases x with
  | none => exact ⟨⟨fun _ => rfl, fun _ => rfl⟩, fun a b ha => (by simp at ha)⟩
  | some l =>
    refine ⟨⟨fun h => (by simp at h), fun h => (by simp at h)⟩, fun a b ha hb => ?_⟩
    cases hb
    simp only [Option.map_some', Option.some.injEq] at ha
    subst ha
    simp

/-- C13: the allowed env value sources are carried over in full: for every
input container and every index whose input env var has a non-nil `ValueFrom`,
the output env var at that index has a non-nil `ValueFrom` whose
`ConfigMapKeyRef` and `SecretKeyRef` are equal to the input's (nil exactly when
the input's is nil, otherwise equal in value). -/
theorem KnativeContainer_key_refs_carried {K : CoreV1} (c : Container K)
    (env : List (EnvVar K)) (i : Nat) (e : EnvVar K) (vf : EnvVarSource K)
    (hEnv : c.Env = some env) (hi : env[i]? = some e) (hvf : e.ValueFrom = some vf) :
    ∃ out env' e' vf', KnativeContainer (some c) = Except.ok (some c, some out) ∧
      out.Env = some env' ∧ env'[i]? = some e' ∧ e'.ValueFrom = some vf' ∧
      vf'.ConfigMapKeyRef = vf.ConfigMapKeyRef ∧ vf'.SecretKeyRef = vf.SecretKeyRef := by
  refine ⟨maskedContainer c, env.map maskedEnvVar, maskedEnvVar e, maskedEnvVarSource vf,
    KnativeContainer_some c, ?_, ?_, ?_, rfl, rfl⟩
  · simp [maskedContainer, hEnv]
  · simp [List.getElem?_map, hi]
  · simp [maskedEnvVar, hvf]

/-- Witness of C13: the second env var of `testEnvContainer` reads a secret key
and holds a `ResourceFieldRef`; the output keeps the secret key reference. -/
theorem KnativeContainer_key_refs_carried_witness :
    testEnvContainer.Env = some [testFieldRefVar, testSecretVar,
      { Name := "PORT", Value := "8080", ValueFrom := none }] ∧
    ∃ out env' e' vf', KnativeContainer (some testEnvContainer)
        = Except.ok (some testEnvContainer, some out) ∧
      out.Env = some env' ∧ env'[1]? = some e' ∧ e'.ValueFrom = some vf' ∧
      vf'.ConfigMapKeyRef = none ∧
      vf'.SecretKeyRef = some [("Name", "creds"), ("Key", "token")] :=
  ⟨rfl, KnativeContainer_key_refs_carried testEnvContainer _ 1 testSecretVar
    (EnvVarSource.mk none (some [("Resource", "limits.cpu")]) none
      (some [("Name", "creds"), ("Key", "token")])) rfl rfl rfl⟩

/-- C14: the presence of `ValueFrom` is preserved even when all of its content
is dropped: at every index the output env var's `ValueFrom` is nil if and only
if the input env var's is nil; and when the input's `ValueFrom` holds no
`ConfigMapKeyRef` and no `SecretKeyRef` (only a `FieldRef` or a
`ResourceFieldRef`, or nothing), the output's `ValueFrom` is non-nil with all
four references nil. -/
theorem KnativeContainer_value_from_presence {K : CoreV1} (c : Container K)
    (env : List (EnvVar K)) (i : Nat) (e : EnvVar K)
    (hEnv : c.Env = some env) (hi : env[i]? = some e) :
    ∃ out env' e', KnativeContainer (some c) = Except.ok (some c, some out) ∧
      out.Env = some env' ∧ env'[i]? = some e' ∧
      (e'.ValueFrom = none ↔ e.ValueFrom = none) ∧
      ∀ vf, e.ValueFrom = some vf → vf.ConfigMapKeyRef = none → vf.SecretKeyRef = none →
        e'.ValueFrom = some { FieldRef := none, ResourceFieldRef := none,
                              ConfigMapKeyRef := none, SecretKeyRef := none } := by
  refine ⟨maskedContainer c, env.map maskedEnvVar, maskedEnvVar e,
    KnativeContainer_some c, ?_, ?_, ?_, ?_⟩
  · simp [maskedContainer, hEnv]
  · simp [List.getElem?_map, hi]
  · simp [maskedEnvVar]
  · intro vf hvf h1 h2
    simp [maskedEnvVar, maskedEnvVarSource, hvf, h1, h2]

/-- Witness of C14: the first env var of `testEnvContainer` holds only a
`FieldRef`; the output env var at that index has a non-nil, empty
`ValueFrom`. -/
theorem KnativeContainer_value_from_presence_witness :
    testEnvContainer.Env = some [testFieldRefVar, testSecretVar,
      { Name := "PORT", Value := "8080", ValueFrom := none }] ∧
    testFieldRefVar.ValueFrom
      = some (EnvVarSource.mk (some [("FieldPath", "metadata.name")]) none none none) ∧
    ∃ out env' e', KnativeContainer (some testEnvContainer)
        = Except.ok (some testEnvContainer, some out) ∧
      out.Env = some env' ∧ env'[0]? = some e' ∧
      e'.ValueFrom = some { FieldRef := none, ResourceFieldRef := none,
                            ConfigMapKeyRef := none, SecretKeyRef := none } := by
  obtain ⟨out, env', e', hrun, henv, he, _, h⟩ :=
    KnativeContainer_value_from_presence testEnvContainer _ 0 testFieldRefVar rfl rfl
  exact ⟨rfl, rfl, out, env', e', hrun, henv, he, h _ rfl rfl rfl⟩

/-- C15: `WorkingDir`, which no comment of `KnativeContainer` lists, is dropped:
for every non-nil input container the output's `WorkingDir` is the empty
string, whatever the input's is. -/
theorem KnativeContainer_working_dir_dropped {K : CoreV1} (c : Container K) :
    ∃ out, KnativeContainer (some c) = Except.ok (some c, some out) ∧ out.WorkingDir = "" :=
  ⟨maskedContainer c, KnativeContainer_some c, rfl⟩

/-- C16: slice shape is preserved: for every non-nil input container, each of
`Args`, `Command`, `Env`, `EnvFrom`, `Ports` and `VolumeMounts` is nil in the
output if and only if it is nil in the input and otherwise has the input's
length, and each of `LivenessProbe`, `ReadinessProbe` and `SecurityContext` is
nil in the output if and only if it is nil in the input. -/
theorem KnativeContainer_shape_preserved {K : CoreV1} (c : Container K) :
    ∃ out, KnativeContainer (some c) = Except.ok (some c, some out) ∧
      sameShape out.Args c.Args ∧ sameShape out.Command c.Command ∧
      sameShape out.Env c.Env ∧ sameShape out.EnvFrom c.EnvFrom ∧
      sameShape out.Ports c.Ports ∧ sameShape out.VolumeMounts c.VolumeMounts ∧
      (out.LivenessProbe = none ↔ c.LivenessProbe = none) ∧
      (out.ReadinessProbe = none ↔ c.ReadinessProbe = none) ∧
      (out.SecurityContext = none ↔ c.SecurityContext = none) :=
  ⟨maskedContainer c, KnativeContainer_some c, sameShape_refl _, sameShape_refl _,
    sameShape_map maskedEnvVar c.Env, sameShape_refl _, sameShape_refl _, sameShape_refl _,
    Iff.rfl, Iff.rfl, Iff.rfl⟩

/-! ## Claim on the Release-mode traffic split -/

/-- C11: Release-mode traffic split: for every ordered pair of revisions
`[r1, r2]` and every rollout percentage `P` with `0 ≤ P ≤ 100`, the synthesized
Route gives `r1` exactly `100 - P` percent under the target `"current"` and
`r2` exactly `P` percent under the target `"next"`, the named-target
percentages sum to exactly 100, and every percentage lies between 0 and 100;
in particular for `P = 0` the `"next"` target exists with 0 percent. -/
theorem releaseTraffic_split (configuration latestCreated r1 r2 : String) (P : Int)
    (h0 : 0 ≤ P) (h100 : P ≤ 100) :
    ∃ traffic, releaseTraffic configuration latestCreated [r1, r2] P = some traffic ∧
      targetNamed traffic "current"
        = some { name := "current", revisionRef := RevisionRef.revision r1,
                 percent := 100 - P } ∧
      targetNamed traffic "next"
        = some { name := "next", revisionRef := RevisionRef.revision r2, percent := P } ∧
      namedPercentSum traffic = 100 ∧
      ∀ t ∈ traffic, 0 ≤ t.percent ∧ t.percent ≤ 100 := by
  refine ⟨_, rfl, ?_, ?_, ?_, ?_⟩
  · simp [targetNamed]
  · simp [targetNamed]
  · simp only [namedPercentSum, latestTarget, List.filter_cons]
    by_cases h1 : r1 = "" <;> by_cases h2 : r2 = "" <;> simp [h1, h2]
  · intro t ht
    simp only [latestTarget, List.mem_cons, List.mem_singleton, List.not_mem_nil,
      or_false] at ht
    rcases ht with rfl | rfl | rfl | rfl | rfl <;> simp <;> omega

/-- Witness of C11: the split of `TestReleaseService`, 42 percent to the second
revision, gives 58 and 42; and with 0 percent the `"next"` target is there
with 0. -/
theorem releaseTraffic_split_witness :
    (∃ traffic, releaseTraffic "svc" "svc-2" ["svc-1", "svc-2"] 42 = some traffic ∧
      targetNamed traffic "current"
        = some { name := "current", revisionRef := RevisionRef.revision "svc-1",
                 percent := 58 } ∧
      targetNamed traffic "next"
        = some { name := "next", revisionRef := RevisionRef.revision "svc-2",
                 percent := 42 } ∧
      namedPercentSum traffic = 100 ∧
      ∀ t ∈ traffic, 0 ≤ t.percent ∧ t.percent ≤ 100) ∧
    (∃ traffic, releaseTraffic "svc" "svc-2" ["svc-1", "svc-2"] 0 = some traffic ∧
      targetNamed traffic "current"
        = some { name := "current", revisionRef := RevisionRef.revision "svc-1",
                 percent := 100 } ∧
      targetNamed traffic "next"
        = some { name := "next", revisionRef := RevisionRef.revision "svc-2",
                 percent := 0 } ∧
      namedPercentSum traffic = 100 ∧
      ∀ t ∈ traffic, 0 ≤ t.percent ∧ t.percent ≤ 100) :=
  ⟨releaseTraffic_split "svc" "svc-2" "svc-1" "svc-2" 42 (by decide) (by decide),
   releaseTraffic_split "svc" "svc-2" "svc-1" "svc-2" 0 (by decide) (by decide)⟩

/-! ## Claim on the generations of a Configuration -/

theorem createRevision_fresh (store : List Revision) (r : Revision)
    (h : ∀ x ∈ store, x.name ≠ r.name) : createRevision store r = store ++ [r] := by
  have hany : store.any (fun x => decide (x.name = r.name)) = false := by
    rw [List.any_eq_false]
    intro x hx
    simpa using h x hx
  simp [createRevision, hany]

theorem Configuration.create_inv (name : String) (t : RevisionTemplate) :
    (Configuration.create name t).Inv ∧ (Configuration.create name t).generation = 1 ∧
      (Configuration.create name t).name = name ∧
      (Configuration.create name t).template = t := by
  refine ⟨⟨?_, rfl, rfl⟩, rfl, rfl, rfl⟩
  intro r hr
  simp only [Configuration.create, Configuration.reconcile, createRevision, List.any_nil,
    Bool.false_eq_true, if_false, List.nil_append, List.mem_singleton] at hr
  subst hr
  rfl

/-- A spec change on a Configuration that satisfies the invariant: the
generation goes up by one and exactly one Revision, carrying the new
generation and template, is added after the existing ones. -/
theorem Configuration.update_of_change (c : Configuration) (t : RevisionTemplate)
    (hI : c.Inv) (ht : t ≠ c.template) :
    Configuration.update c t =
      { name := c.name, template := t, generation := c.generation + 1,
        revisions := c.revisions ++
          [{ name := { configuration := c.name, generation := c.generation + 1 },
             generation := c.generation + 1, template := t }],
        LatestCreatedRevisionName :=
          some { configuration := c.name, generation := c.generation + 1 } } := by
  obtain ⟨hname, hgen, _⟩ := hI
  have hfresh : ∀ x ∈ c.revisions,
      x.name ≠ { configuration := c.name, generation := c.generation + 1 } := by
    intro x hx hEq
    have hmem : x.generation ∈ c.generations := List.mem_map_of_mem _ hx
    rw [hgen, List.mem_range'_1] at hmem
    rw [hname x hx] at hEq
    have : x.generation = c.generation + 1 := by
      injection hEq
    omega
  simp only [Configuration.update, if_neg ht, Configuration.reconcile]
  rw [createRevision_fresh _ _ hfresh]

theorem Configuration.update_of_change_inv (c : Configuration) (t : RevisionTemplate)
    (hI : c.Inv) (ht : t ≠ c.template) : (Configuration.update c t).Inv := by
  rw [Configuration.update_of_change c t hI ht]
  obtain ⟨hname, hgen, _⟩ := hI
  refine ⟨?_, ?_, rfl⟩
  · intro r hr
    simp only [List.mem_append, List.mem_singleton] at hr
    rcases hr with hr | rfl
    · exact hname r hr
    · rfl
  · have hgen' : List.map (fun r => r.generation) c.revisions
        = List.range' 1 c.generation := hgen
    simp only [Configuration.generations, List.map_append, List.map_cons, List.map_nil,
      hgen', List.range'_1_concat, Nat.add_comm 1 c.generation]

/-- A sequence of spec changes, each different from the template before it,
keeps the invariant and raises the generation by the number of changes. -/
theorem Configuration.foldl_update (updates : List RevisionTemplate) :
    ∀ (c : Configuration), c.Inv → List.Chain (fun a b => a ≠ b) c.template updates →
      (updates.foldl Configuration.update c).Inv ∧
      (updates.foldl Configuration.update c).generation = c.generation + updates.length ∧
      (updates.foldl Configuration.update c).name = c.name := by
  induction updates with
  | nil => intro c hI _; exact ⟨hI, rfl, rfl⟩
  | cons t ts ih =>
    intro c hI hchain
    rw [List.chain_cons] at hchain
    have ht : t ≠ c.template := fun h => hchain.1 h.symm
    have hI' := Configuration.update_of_change_inv c t hI ht
    have hEq := Configuration.update_of_change c t hI ht
    have htemplate : (Configuration.update c t).template = t := by rw [hEq]
    have hgeneration : (Configuration.update c t).generation = c.generation + 1 := by rw [hEq]
    have hname : (Configuration.update c t).name = c.name := by rw [hEq]
    have := ih (Configuration.update c t) hI' (by rw [htemplate]; exact hchain.2)
    simp only [List.foldl_cons, List.length_cons]
    refine ⟨this.1, ?_, ?_⟩
    · rw [this.2.1, hgeneration]; omega
    · rw [this.2.2, hname]

theorem Configuration.run_inv (name : String) (t0 : RevisionTemplate)
    (updates : List RevisionTemplate) (h : List.Chain (fun a b => a ≠ b) t0 updates) :
    (Configuration.run name t0 updates).Inv ∧
    (Configuration.run name t0 updates).generation = updates.length + 1 ∧
    (Configuration.run name t0 updates).name = name := by
  obtain ⟨hI, hg, hn, ht⟩ := Configuration.create_inv name t0
  have := Configuration.foldl_update updates (Configuration.create name t0) hI
    (by rw [ht]; exact h)
  refine ⟨this.1, ?_, ?_⟩
  · show (updates.foldl Configuration.update (Configuration.create name t0)).generation = _
    rw [this.2.1, hg]; omega
  · show (updates.foldl Configuration.update (Configuration.create name t0)).name = _
    rw [this.2.2, hn]

/-- C12: generation monotonicity: for every sequence of spec updates to a
Service's Configuration, each one a change of the revision template, the
Revisions created have the generations `1, 2, ..., n + 1` in creation order
(the one created with the Service 1, the one after the first update 2, the one
after the second 3), so they are strictly increasing and no two Revisions
share a generation; the latest created Revision is the one of generation
`n + 1`; and a further spec update mints exactly one new Revision, whose
generation `n + 2` is strictly greater than all earlier ones. -/
theorem Configuration_generation_monotone (name : String) (t0 : RevisionTemplate)
    (updates : List RevisionTemplate) (h : List.Chain (fun a b => a ≠ b) t0 updates) :
    (Configuration.run name t0 updates).generations = List.range' 1 (updates.length + 1) ∧
    (Configuration.run name t0 updates).generations.Pairwise (fun a b => a < b) ∧
    (Configuration.run name t0 updates).generations.Nodup ∧
    (Configuration.run name t0 updates).LatestCreatedRevisionName
      = some { configuration := name, generation := updates.length + 1 } ∧
    ∀ t, t ≠ (Configuration.run name t0 updates).template →
      ∃ r, (Configuration.update (Configuration.run name t0 updates) t).revisions
          = (Configuration.run name t0 updates).revisions ++ [r] ∧
        r.generation = updates.length + 2 ∧
        ∀ r' ∈ (Configuration.run name t0 updates).revisions, r'.generation < r.generation := by
  obtain ⟨hI, hg, hn⟩ := Configuration.run_inv name t0 updates h
  have hgens : (Configuration.run name t0 updates).generations
      = List.range' 1 (updates.length + 1) := by rw [hI.2.1, hg]
  refine ⟨hgens, ?_, ?_, ?_, ?_⟩
  · rw [hgens]; exact List.pairwise_lt_range' 1 _
  · rw [hgens]; exact List.nodup_range' 1 _
  · rw [hI.2.2, hg, hn]
  · intro t ht
    refine ⟨{ name := { configuration := (Configuration.run name t0 updates).name,
                        generation := (Configuration.run name t0 updates).generation + 1 },
              generation := (Configuration.run name t0 updates).generation + 1,
              template := t }, ?_, ?_, ?_⟩
    · rw [Configuration.update_of_change _ t hI ht]
    · show (Configuration.run name t0 updates).generation + 1 = _
      rw [hg]
    · intro r' hr'
      have hmem : r'.generation ∈ (Configuration.run name t0 updates).generations :=
        List.mem_map_of_mem _ hr'
      rw [hgens, List.mem_range'_1] at hmem
      show r'.generation < (Configuration.run name t0 updates).generation + 1
      omega

/-- Witness of C12: the updates of `TestUpdateRevisionTemplateSpecMetadata`
(labels, then annotations) and the single update of `TestRunLatestService`:
the generations are 1, then 1 and 2, then 1, 2 and 3. -/
theorem Configuration_generation_monotone_witness :
    (Configuration.run "svc" testTemplate1 []).generations = [1] ∧
    (Configuration.run "svc" testTemplate1 [testTemplate2]).generations = [1, 2] ∧
    (Configuration.run "svc" testTemplate1 [testTemplate2, testTemplate3]).generations
      = [1, 2, 3] ∧
    (Configuration.run "svc" testTemplate1 [testTemplate2, testTemplate3]).LatestCreatedRevisionName
      = some { configuration := "svc", generation := 3 } :=
  ⟨(Configuration_generation_monotone "svc" testTemplate1 [] List.Chain.nil).1,
   (Configuration_generation_monotone "svc" testTemplate1 [testTemplate2]
      (List.Chain.cons (by decide) List.Chain.nil)).1,
   (Configuration_generation_monotone "svc" testTemplate1 [testTemplate2, testTemplate3]
      (List.Chain.cons (by decide) (List.Chain.cons (by decide) List.Chain.nil))).1,
   (Configuration_generation_monotone "svc" testTemplate1 [testTemplate2, testTemplate3]
      (List.Chain.cons (by decide) (List.Chain.cons (by decide) List.Chain.nil))).2.2.2.1⟩

end Serving
